import Mathlib

/-!
Verification of the Safe-Tourist repository's access-control and
provisioning layer, shallowly embedded from the database migrations
(`supabase/migrations/20250914061621_*.sql`,
`supabase/migrations/20250919133059_*.sql`) and the client handlers
(`AdminDashboard.tsx`, `EmergencyModal.tsx`, the tourist app component).

UUIDs are modelled as naturals, timestamps as naturals, and the
fixed-point decimal coordinates as integers (their exact values never
matter to any property proved here).  The `created_at`/`updated_at`
bookkeeping columns are omitted: no claim mentions them.
-/

namespace SafeTourist

/-- The `app_role` enumeration from the first migration:
`CREATE TYPE public.app_role AS ENUM ('tourist', 'admin', 'police')`. -/
inductive AppRole
  | tourist
  | admin
  | police
deriving DecidableEq, Repr

abbrev UserId := Nat

/-- A row of `public.profiles` (migration 20250914061621).  `user_id` is
`NOT NULL UNIQUE REFERENCES auth.users(id)`; `full_name` and `role` are
`NOT NULL`; the remaining text columns are nullable. -/
structure ProfileRow where
  id : Nat
  user_id : UserId
  full_name : String
  role : AppRole
  phone : Option String
  emergency_contact_name : Option String
  emergency_contact_phone : Option String
  country : Option String
deriving DecidableEq, Repr

/-- A row of `public.tourist_sessions`.  `user_id` is `NOT NULL` with a
foreign key but, unlike `profiles.user_id`, carries NO unique
constraint; the only unique index on this table is the primary key
`id`. -/
structure SessionRow where
  id : Nat
  user_id : UserId
  is_active : Bool
  start_time : Option Nat
  end_time : Option Nat
  current_location_lat : Option Int
  current_location_lng : Option Int
  safety_status : Option String
  last_ping : Option Nat
deriving DecidableEq, Repr

/-- A row of `public.emergency_alerts`. -/
structure AlertRow where
  id : Nat
  user_id : UserId
  alert_type : String
  message : Option String
  location_lat : Option Int
  location_lng : Option Int
  status : Option String
  resolved_at : Option Nat
  resolved_by : Option UserId
deriving DecidableEq, Repr

/-- The database state visible to the policies: the authentication
system's user table (`auth.users`, modelled by its ids) and the three
application tables. -/
structure DbState where
  authUsers : List UserId
  profiles : List ProfileRow
  sessions : List SessionRow
  alerts : List AlertRow
deriving DecidableEq, Repr

/-- Errors a statement can raise; an error aborts the statement's
transaction, so the pre-state is what persists. -/
inductive PgError
  | rlsViolation
  | uniqueViolation
  | fkViolation
  | invalidEnumCast
  | noUniqueConstraint
deriving DecidableEq, Repr

/-- Transaction semantics: an erroring statement leaves the database as
it was. -/
def applyOrRollback (db : DbState) (r : Except PgError DbState) : DbState :=
  match r with
  | .ok s => s
  | .error _ => db

/-- `public.get_user_role(user_uuid)`: `SELECT role FROM public.profiles
WHERE user_id = user_uuid`.  A scalar SQL function returning no row
yields NULL, modelled as `none`.  (SECURITY DEFINER: it reads `profiles`
without row-level checks, which the direct list lookup reflects.) -/
def get_user_role (db : DbState) (uid : UserId) : Option AppRole :=
  (db.profiles.find? (fun p => p.user_id == uid)).map (fun p => p.role)

/-- The membership test `public.get_user_role(auth.uid()) IN
('admin', 'police')` used by the elevated-access policies.  When
`get_user_role` yields NULL the SQL `IN` yields NULL, which a policy
treats as false — hence the catch-all `false` branch. -/
def isElevated (db : DbState) (uid : UserId) : Bool :=
  match get_user_role db uid with
  | some AppRole.admin => true
  | some AppRole.police => true
  | _ => false

/-! ### Row-level policies

Policies are permissive, so visibility/permission for a command is the
OR of the USING clauses of the policies covering that command. -/

/-- `profiles` SELECT: "Users can view their own profile" OR
"Admins and police can view all profiles". -/
def profilesSelectPolicy (db : DbState) (uid : UserId) (row : ProfileRow) : Bool :=
  (uid == row.user_id) || isElevated db uid

/-- `profiles` INSERT: "Users can insert their own profile",
`WITH CHECK (auth.uid() = user_id)`. -/
def profilesInsertCheck (uid : UserId) (row : ProfileRow) : Bool :=
  uid == row.user_id

/-- `tourist_sessions` SELECT: "Users can manage their own sessions"
(FOR ALL) OR "Admins and police can view all sessions" (FOR SELECT). -/
def sessionsSelectPolicy (db : DbState) (uid : UserId) (row : SessionRow) : Bool :=
  (uid == row.user_id) || isElevated db uid

/-- `tourist_sessions` write access: only the FOR ALL policy "Users can
manage their own sessions", `USING (auth.uid() = user_id)`; the
elevated-role policy is SELECT-only and grants no writes. -/
def sessionsWriteUsing (uid : UserId) (row : SessionRow) : Bool :=
  uid == row.user_id

/-- `emergency_alerts` SELECT: "Users can view their own alerts" OR
"Admins and police can view all alerts". -/
def alertsSelectPolicy (db : DbState) (uid : UserId) (row : AlertRow) : Bool :=
  (uid == row.user_id) || isElevated db uid

/-- `emergency_alerts` INSERT: "Users can create their own alerts",
`WITH CHECK (auth.uid() = user_id)`. -/
def alertsInsertCheck (uid : UserId) (row : AlertRow) : Bool :=
  uid == row.user_id

/-- `emergency_alerts` UPDATE: only "Admins and police can update
alerts", `USING (get_user_role(auth.uid()) IN ('admin','police'))`.
There is no owner UPDATE policy on this table. -/
def alertsUpdateUsing (db : DbState) (uid : UserId) (_row : AlertRow) : Bool :=
  isElevated db uid

/-! ### Statement semantics under the policies -/

/-- A SELECT with client filter `pred` returns exactly the rows that
both satisfy the filter and pass some SELECT policy. -/
def selectAlerts (db : DbState) (uid : UserId) (pred : AlertRow → Bool) : List AlertRow :=
  db.alerts.filter (fun r => alertsSelectPolicy db uid r && pred r)

def selectSessions (db : DbState) (uid : UserId) (pred : SessionRow → Bool) : List SessionRow :=
  db.sessions.filter (fun r => sessionsSelectPolicy db uid r && pred r)

def selectProfiles (db : DbState) (uid : UserId) (pred : ProfileRow → Bool) : List ProfileRow :=
  db.profiles.filter (fun r => profilesSelectPolicy db uid r && pred r)

/-- An UPDATE on `emergency_alerts` touches exactly the rows passing
both the client filter and the UPDATE policy's USING clause; rows the
policy hides are silently skipped (no error).  The policy's WITH CHECK
defaults to its USING clause, which only inspects the caller, so it can
never fail on a row the USING clause admitted. -/
def updateAlerts (db : DbState) (uid : UserId) (pred : AlertRow → Bool)
    (patch : AlertRow → AlertRow) : DbState :=
  let touched : AlertRow → AlertRow :=
    fun r => if alertsUpdateUsing db uid r && pred r then patch r else r
  { db with alerts := db.alerts.map touched }

/-- An UPDATE on `tourist_sessions`.  The FOR ALL policy's WITH CHECK
defaults to its USING clause and is re-evaluated on the patched row; a
patched row failing it aborts the whole statement. -/
def updateSessions (db : DbState) (uid : UserId) (pred : SessionRow → Bool)
    (patch : SessionRow → SessionRow) : Except PgError DbState :=
  let touched : SessionRow → SessionRow :=
    fun r => if sessionsWriteUsing uid r && pred r then patch r else r
  if db.sessions.all
      (fun r => !(sessionsWriteUsing uid r && pred r) || sessionsWriteUsing uid (patch r)) then
    .ok { db with sessions := db.sessions.map touched }
  else
    .error .rlsViolation

/-- An INSERT into `emergency_alerts`: the WITH CHECK of "Users can
create their own alerts" must hold, else the statement errors and
nothing is written. -/
def insertAlert (db : DbState) (uid : UserId) (row : AlertRow) : Except PgError DbState :=
  if alertsInsertCheck uid row then
    .ok { db with alerts := db.alerts ++ [row] }
  else
    .error .rlsViolation

/-- A client-side INSERT into `profiles`: the RLS WITH CHECK, the UNIQUE
constraint on `user_id`, and the foreign key to `auth.users` all apply. -/
def insertProfileClient (db : DbState) (uid : UserId) (row : ProfileRow) :
    Except PgError DbState :=
  if !(profilesInsertCheck uid row) then
    .error .rlsViolation
  else if db.profiles.any (fun p => p.user_id == row.user_id) then
    .error .uniqueViolation
  else if !(db.authUsers.contains row.user_id) then
    .error .fkViolation
  else
    .ok { db with profiles := db.profiles ++ [row] }

/-! ### New-user provisioning (migration 20250919133059) -/

/-- The signup metadata payload (`raw_user_meta_data`), with each key
optional. -/
structure SignupMetadata where
  full_name : Option String
  role : Option String
  phone : Option String
  emergency_contact_name : Option String
  emergency_contact_phone : Option String
  country : Option String
deriving DecidableEq, Repr

/-- The cast `text::app_role`: defined exactly on the three enum
labels, an error otherwise. -/
def castAppRole : String → Option AppRole
  | "tourist" => some AppRole.tourist
  | "admin" => some AppRole.admin
  | "police" => some AppRole.police
  | _ => none

/-- `COALESCE((NEW.raw_user_meta_data ->> 'role')::app_role, 'tourist')`:
an absent key makes the cast operate on NULL (yielding NULL, so the
COALESCE default applies); a present key with an invalid label makes
the cast itself error, before COALESCE can intervene. -/
def metaRole (meta : SignupMetadata) : Except PgError AppRole :=
  match meta.role with
  | none => .ok AppRole.tourist
  | some s =>
    match castAppRole s with
    | some r => .ok r
    | none => .error .invalidEnumCast

/-- The row `public.handle_new_user` inserts (second-migration version,
which replaces the first): `full_name` defaults to the literal
`'User'`, the four optional text fields are passed through as-is. -/
def provisionedProfile (newId : UserId) (pid : Nat) (meta : SignupMetadata)
    (r : AppRole) : ProfileRow :=
  { id := pid
    user_id := newId
    full_name := meta.full_name.getD "User"
    role := r
    phone := meta.phone
    emergency_contact_name := meta.emergency_contact_name
    emergency_contact_phone := meta.emergency_contact_phone
    country := meta.country }

/-- `public.handle_new_user()`: computes the VALUES tuple (erroring on
an invalid role cast) and inserts it into `profiles`, subject to the
UNIQUE constraint on `user_id`.  SECURITY DEFINER: RLS does not apply. -/
def handle_new_user (db : DbState) (newId : UserId) (pid : Nat)
    (meta : SignupMetadata) : Except PgError DbState :=
  match metaRole meta with
  | .error e => .error e
  | .ok r =>
    if db.profiles.any (fun p => p.user_id == newId) then
      .error .uniqueViolation
    else
      .ok { db with profiles := db.profiles ++ [provisionedProfile newId pid meta r] }

/-- A signup: the new `auth.users` row is inserted and the
`on_auth_user_created` trigger fires in the same transaction, so a
trigger error aborts the auth insert as well. -/
def signup (db : DbState) (newId : UserId) (pid : Nat) (meta : SignupMetadata) :
    Except PgError DbState :=
  handle_new_user { db with authUsers := db.authUsers ++ [newId] } newId pid meta

/-- The state the system is left in after a signup attempt: the new
state on success, the untouched pre-state on abort. -/
def runSignup (db : DbState) (newId : UserId) (pid : Nat) (meta : SignupMetadata) :
    DbState :=
  applyOrRollback db (signup db newId pid meta)

/-! ### Client handlers -/

/-- The patch `handleResolveAlert` (AdminDashboard) and
`handleEmergencyResponse` (EmergencyModal) send: `status: 'resolved'`,
`resolved_at: now`, `resolved_by: caller`. -/
def resolvePatch (now : Nat) (resolver : UserId) (r : AlertRow) : AlertRow :=
  { r with status := some "resolved", resolved_at := some now, resolved_by := some resolver }

/-- `handleResolveAlert` (AdminDashboard.tsx): update `emergency_alerts`
with the resolve patch, filtered on `id = alertId`. -/
def handleResolveAlert (db : DbState) (uid : UserId) (alertId : Nat) (now : Nat) :
    DbState :=
  updateAlerts db uid (fun r => r.id == alertId) (resolvePatch now uid)

/-- `handleEmergencyResponse` (EmergencyModal.tsx): first an UPDATE of
`tourist_sessions` setting `safety_status: 'safe'` filtered on
`user_id = alert.user_id AND is_active`, then the alert resolution.
The handler never destructures the first call's result — a zero-row
match or an error object is ignored and the second call proceeds on
whatever state resulted. -/
def handleEmergencyResponse (db : DbState) (uid : UserId) (alertUserId : UserId)
    (alertId : Nat) (now : Nat) : DbState :=
  let db1 := applyOrRollback db
    (updateSessions db uid (fun s => s.user_id == alertUserId && s.is_active)
      (fun s => { s with safety_status := some "safe" }))
  updateAlerts db1 uid (fun r => r.id == alertId) (resolvePatch now uid)

/-! ### The start-tracking upsert -/

/-- Whether `tourist_sessions` carries a unique or exclusion constraint
on the given column, per the migration's table definition: only the
primary key `id` does.  In particular `user_id` does NOT (contrast
`profiles.user_id`, which is declared UNIQUE). -/
def sessionsHasUniqueOn (col : String) : Bool :=
  col == "id"

/-- The `startTracking` upsert (tourist app component):
`upsert({...}, { onConflict: 'user_id' })` becomes
`INSERT ... ON CONFLICT (user_id) DO UPDATE SET ...`.  ON CONFLICT
performs unique-index inference over the named column: without a unique
or exclusion constraint on it the statement is rejected outright
(SQLSTATE 42P10), before touching any row.  With such a constraint it
would merge into the conflicting row, keeping its primary key. -/
def startTrackingUpsert (db : DbState) (row : SessionRow) : Except PgError DbState :=
  let merge : SessionRow → SessionRow :=
    fun s => if s.user_id == row.user_id then { row with id := s.id } else s
  if sessionsHasUniqueOn "user_id" then
    if db.sessions.any (fun s => s.user_id == row.user_id) then
      .ok { db with sessions := db.sessions.map merge }
    else
      .ok { db with sessions := db.sessions ++ [row] }
  else
    .error .noUniqueConstraint

/-- The one-profile-per-user invariant together with the foreign key
from `profiles.user_id` into `auth.users`. -/
def profilesInvariant (db : DbState) : Prop :=
  (∀ u ∈ db.authUsers, (db.profiles.filter (fun p => p.user_id == u)).length = 1) ∧
  (∀ p ∈ db.profiles, p.user_id ∈ db.authUsers)

instance : DecidablePred profilesInvariant := fun db => by
  unfold profilesInvariant
  infer_instance

/-- The content columns of an alert, as opposed to the triage columns
`status`/`resolved_at`/`resolved_by`. -/
def alertContent (r : AlertRow) :
    UserId × String × Option String × Option Int × Option Int :=
  (r.user_id, r.alert_type, r.message, r.location_lat, r.location_lng)

/-! ### Shared fixtures for concrete instantiations -/

def adminProfile : ProfileRow :=
  { id := 0, user_id := 1, full_name := "Root", role := AppRole.admin
    phone := none, emergency_contact_name := none
    emergency_contact_phone := none, country := none }

def touristProfile : ProfileRow :=
  { id := 1, user_id := 2, full_name := "Alex", role := AppRole.tourist
    phone := none, emergency_contact_name := none
    emergency_contact_phone := none, country := none }

def sampleAlert : AlertRow :=
  { id := 10, user_id := 2, alert_type := "panic", message := some "help"
    location_lat := some 40, location_lng := some (-74), status := some "active"
    resolved_at := none, resolved_by := none }

def sampleSession : SessionRow :=
  { id := 20, user_id := 2, is_active := true, start_time := some 0
    end_time := none, current_location_lat := some 40
    current_location_lng := some (-74), safety_status := some "safe"
    last_ping := some 0 }

/-- A database with one admin (user 1) and one tourist (user 2) who owns
the sample session and alert. -/
def sampleDb : DbState :=
  { authUsers := [1, 2]
    profiles := [adminProfile, touristProfile]
    sessions := [sampleSession]
    alerts := [sampleAlert] }

/-! ### Helper lemmas -/

/-- Mapping a function that fixes every element of a list is the
identity. -/
theorem listMapId {α : Type} (f : α → α) (l : List α) (h : ∀ a ∈ l, f a = a) :
    l.map f = l :=
  (List.map_congr_left h).trans (List.map_id' l)

/-- The resolve patch touches only the triage columns. -/
theorem alertContent_resolvePatch (now : Nat) (resolver : UserId) (r : AlertRow) :
    alertContent (resolvePatch now resolver r) = alertContent r :=
  rfl

/-! ### Claim theorems -/

/-- Claim C1: a caller whose role is neither admin nor police (the
elevated membership check is false) sees zero rows when selecting
another user's `emergency_alerts` or `tourist_sessions` rows. -/
theorem nonElevatedCrossUserSelectEmpty (db : DbState) (uid other : UserId)
    (hrole : isElevated db uid = false) (hne : other ≠ uid) :
    selectAlerts db uid (fun r => r.user_id == other) = [] ∧
    selectSessions db uid (fun r => r.user_id == other) = [] := by
  constructor
  · apply List.filter_eq_nil_iff.mpr
    intro r _
    simp only [alertsSelectPolicy, hrole, Bool.or_false, Bool.and_eq_true,
      beq_iff_eq, not_and]
    intro h1 h2
    exact hne (h2 ▸ h1.symm)
  · apply List.filter_eq_nil_iff.mpr
    intro r _
    simp only [sessionsSelectPolicy, hrole, Bool.or_false, Bool.and_eq_true,
      beq_iff_eq, not_and]
    intro h1 h2
    exact hne (h2 ▸ h1.symm)

theorem nonElevatedCrossUserSelectEmptyWitness :
    selectAlerts sampleDb 2 (fun r => r.user_id == 1) = [] ∧
    selectSessions sampleDb 2 (fun r => r.user_id == 1) = [] :=
  nonElevatedCrossUserSelectEmpty sampleDb 2 1 (by decide) (by decide)

/-- Claim C9: a caller without an identity record resolves to no role,
every elevated membership check is false, and every cross-user branch
of the select and update policies denies access. -/
theorem absentRoleDeniesElevatedAccess (db : DbState) (uid : UserId)
    (h : get_user_role db uid = none) :
    isElevated db uid = false ∧
    (∀ r : ProfileRow, r.user_id ≠ uid → profilesSelectPolicy db uid r = false) ∧
    (∀ r : SessionRow, r.user_id ≠ uid → sessionsSelectPolicy db uid r = false) ∧
    (∀ r : AlertRow, r.user_id ≠ uid →
      alertsSelectPolicy db uid r = false ∧ alertsUpdateUsing db uid r = false) := by
  have helev : isElevated db uid = false := by
    unfold isElevated
    rw [h]
  refine ⟨helev, ?_, ?_, ?_⟩
  · intro r hr
    simp only [profilesSelectPolicy, helev, Bool.or_false, beq_eq_false_iff_ne]
    exact fun he => hr he.symm
  · intro r hr
    simp only [sessionsSelectPolicy, helev, Bool.or_false, beq_eq_false_iff_ne]
    exact fun he => hr he.symm
  · intro r hr
    refine ⟨?_, ?_⟩
    · simp only [alertsSelectPolicy, helev, Bool.or_false, beq_eq_false_iff_ne]
      exact fun he => hr he.symm
    · simp only [alertsUpdateUsing, helev]

theorem absentRoleDeniesElevatedAccessWitness :
    isElevated sampleDb 5 = false :=
  (absentRoleDeniesElevatedAccess sampleDb 5 (by decide)).1

/-- Claim C6 (code evaluation): the shipped `tourist_sessions` table has
no unique constraint on `user_id`, so the start-tracking upsert keyed
`onConflict user_id` is rejected by unique-index inference on every
execution and never writes or overwrites any row. -/
theorem startTrackingUpsertAlwaysErrors (db : DbState) (row : SessionRow) :
    startTrackingUpsert db row = .error .noUniqueConstraint ∧
    applyOrRollback db (startTrackingUpsert db row) = db := by
  have hcol : sessionsHasUniqueOn "user_id" = false := by decide
  unfold startTrackingUpsert
  rw [hcol]
  exact ⟨rfl, rfl⟩

/-- Claim C2: on an active alert, the resolve update issued by an
elevated caller stores `status = resolved`, `resolved_at` and
`resolved_by`, while the identical update issued by the alert's owning
tourist is denied by the policy layer and leaves the database
unchanged. -/
theorem adminResolvesOwnerDenied (db : DbState) (a : AlertRow) (caller : UserId)
    (now : Nat) (ha : a ∈ db.alerts) (_hactive : a.status = some "active")
    (hadm : isElevated db caller = true)
    (howner : get_user_role db a.user_id = some AppRole.tourist) :
    resolvePatch now caller a ∈ (handleResolveAlert db caller a.id now).alerts ∧
    handleResolveAlert db a.user_id a.id now = db := by
  constructor
  · unfold handleResolveAlert updateAlerts
    have hmem := List.mem_map_of_mem
      (fun r => if alertsUpdateUsing db caller r && (r.id == a.id) then
        resolvePatch now caller r else r) ha
    simpa [alertsUpdateUsing, hadm] using hmem
  · have hown : isElevated db a.user_id = false := by
      unfold isElevated
      rw [howner]
    unfold handleResolveAlert updateAlerts
    have hmap : db.alerts.map
        (fun r => if alertsUpdateUsing db a.user_id r && (r.id == a.id) then
          resolvePatch now (a.user_id) r else r) = db.alerts := by
      apply listMapId
      intro r _
      simp [alertsUpdateUsing, hown]
    simp only [hmap]

theorem adminResolvesOwnerDeniedWitness :
    resolvePatch 99 1 sampleAlert ∈ (handleResolveAlert sampleDb 1 10 99).alerts ∧
    handleResolveAlert sampleDb 2 10 99 = sampleDb :=
  adminResolvesOwnerDenied sampleDb sampleAlert 1 99 (by decide) (by decide)
    (by decide) (by decide)

/-- Claim C10: an update against `tourist_sessions` whose filter only
matches rows the caller does not own touches zero rows whatever the
caller's role, so the emergency-response handler's reset of the
tourist's `safety_status` (issued by a responder who is not the
tourist) leaves the sessions table exactly as it was, with no error
signalled. -/
theorem crossUserSessionUpdateNoOp (db : DbState) (uid alertUserId : UserId)
    (aid now : Nat) (pred : SessionRow → Bool) (patch : SessionRow → SessionRow)
    (hne : uid ≠ alertUserId)
    (hpred : ∀ s ∈ db.sessions, pred s = true → s.user_id ≠ uid) :
    updateSessions db uid pred patch = .ok db ∧
    (handleEmergencyResponse db uid alertUserId aid now).sessions = db.sessions := by
  have core : ∀ (q : SessionRow → Bool) (f : SessionRow → SessionRow),
      (∀ s ∈ db.sessions, q s = true → s.user_id ≠ uid) →
      updateSessions db uid q f = .ok db := by
    intro q f hq
    unfold updateSessions
    have hcond : ∀ s ∈ db.sessions,
        (!(sessionsWriteUsing uid s && q s) || sessionsWriteUsing uid (f s)) = true := by
      intro s hs
      rcases hqs : q s with _ | _
      · simp [hqs]
      · have : uid ≠ s.user_id := fun he => hq s hs hqs he.symm
        simp [sessionsWriteUsing, hqs, this]
    rw [if_pos (List.all_eq_true.mpr hcond)]
    have hmap : db.sessions.map
        (fun r => if sessionsWriteUsing uid r && q r then f r else r) = db.sessions := by
      apply listMapId
      intro s hs
      rcases hqs : q s with _ | _
      · simp [hqs]
      · have : uid ≠ s.user_id := fun he => hq s hs hqs he.symm
        simp [sessionsWriteUsing, hqs, this]
    simp only [hmap]
  refine ⟨core pred patch hpred, ?_⟩
  unfold handleEmergencyResponse
  have hres := core (fun s => s.user_id == alertUserId && s.is_active)
    (fun s => { s with safety_status := some "safe" })
    (by
      intro s _ hs he
      have : s.user_id = alertUserId := by
        have := (Bool.and_eq_true _ _).mp hs
        exact beq_iff_eq.mp this.1
      exact hne (he ▸ this))
  rw [hres]
  rfl

theorem crossUserSessionUpdateNoOpWitness :
    updateSessions sampleDb 1 (fun s => s.user_id == 2 && s.is_active)
      (fun s => { s with safety_status := some "safe" }) = .ok sampleDb ∧
    (handleEmergencyResponse sampleDb 1 2 10 99).sessions = sampleDb.sessions :=
  crossUserSessionUpdateNoOp sampleDb 1 2 10 99
    (fun s => s.user_id == 2 && s.is_active)
    (fun s => { s with safety_status := some "safe" })
    (by decide) (by decide)

/-- Claim C8, refuted at a concrete input: the alerts UPDATE policy
constrains only who may update, not which columns, so the admin
(user 1) CAN rewrite the content column `message` of the tourist's
alert — the claim that an elevated caller's update leaves content
fields unchanged is false of the policy layer. -/
theorem elevatedUpdateCanChangeContent :
    (updateAlerts sampleDb 1 (fun r => r.id == 10)
        (fun r => { r with message := some "tampered" })).alerts.map
      (fun r => r.message) = [some "tampered"] ∧
    sampleDb.alerts.map (fun r => r.message) = [some "help"] := by
  decide

/-- Claim C8 as amended: the column discipline lives in the client
handlers, not in the policy — every update issued through
`handleResolveAlert` or `handleEmergencyResponse` writes only the
triage columns, leaving `user_id`, `alert_type`, `message` and the
location columns of every alert unchanged. -/
theorem triageHandlersPreserveContent (db : DbState) (uid alertUserId : UserId)
    (aid now : Nat) :
    (handleResolveAlert db uid aid now).alerts.map alertContent
      = db.alerts.map alertContent ∧
    (handleEmergencyResponse db uid alertUserId aid now).alerts.map alertContent
      = db.alerts.map alertContent := by
  have hup : ∀ (db2 : DbState) (c : UserId),
      (updateAlerts db2 c (fun r => r.id == aid) (resolvePatch now c)).alerts.map
        alertContent = db2.alerts.map alertContent := by
    intro db2 c
    unfold updateAlerts
    simp only [List.map_map]
    apply List.map_congr_left
    intro r _
    simp only [Function.comp_apply]
    split
    · exact alertContent_resolvePatch now c r
    · rfl
  constructor
  · exact hup db uid
  · have halerts : (applyOrRollback db
        (updateSessions db uid (fun s => s.user_id == alertUserId && s.is_active)
          (fun s => { s with safety_status := some "safe" }))).alerts = db.alerts := by
      simp only [updateSessions]
      split
      · rfl
      · rfl
    simp only [handleEmergencyResponse]
    rw [hup, halerts]

/-- Claim C5: for a tourist caller, an insert into `emergency_alerts`
whose `user_id` differs from the caller's id fails the insert policy's
check and leaves the alerts table unchanged, while an insert with the
caller's own id is permitted and appends the row. -/
theorem touristCannotInsertAlertForOthers (db : DbState) (uid : UserId)
    (row : AlertRow) (_hrole : get_user_role db uid = some AppRole.tourist) :
    (row.user_id ≠ uid →
      insertAlert db uid row = .error .rlsViolation ∧
      (applyOrRollback db (insertAlert db uid row)).alerts = db.alerts) ∧
    (row.user_id = uid →
      insertAlert db uid row = .ok { db with alerts := db.alerts ++ [row] }) := by
  constructor
  · intro hne
    have hchk : alertsInsertCheck uid row = false := by
      simp only [alertsInsertCheck, beq_eq_false_iff_ne]
      exact fun he => hne he.symm
    constructor
    · simp [insertAlert, hchk]
    · simp [insertAlert, hchk, applyOrRollback]
  · intro heq
    have hchk : alertsInsertCheck uid row = true := by
      simp [alertsInsertCheck, heq]
    simp [insertAlert, hchk]

theorem touristCannotInsertAlertForOthersWitness :
    (insertAlert sampleDb 2
        { sampleAlert with id := 11, user_id := 1 } = .error .rlsViolation ∧
      (applyOrRollback sampleDb (insertAlert sampleDb 2
        { sampleAlert with id := 11, user_id := 1 })).alerts = sampleDb.alerts) ∧
    insertAlert sampleDb 2 { sampleAlert with id := 11 } =
      .ok { sampleDb with alerts := sampleDb.alerts ++ [{ sampleAlert with id := 11 }] } :=
  ⟨(touristCannotInsertAlertForOthers sampleDb 2
      { sampleAlert with id := 11, user_id := 1 } (by decide)).1 (by decide),
   (touristCannotInsertAlertForOthers sampleDb 2
      { sampleAlert with id := 11 } (by decide)).2 (by decide)⟩

/-- Claim C3: signup metadata carrying a role string outside the
enumeration makes the role cast error and the whole signup transaction
abort — afterwards neither the profiles row nor the auth user row
persists — while a signup without a role key succeeds with role
`tourist`. -/
theorem invalidRoleAbortsSignup (db : DbState) (newId : UserId) (pid : Nat)
    (meta : SignupMetadata) (s : String)
    (hbad : meta.role = some s) (hcast : castAppRole s = none)
    (hfresh : ∀ p ∈ db.profiles, p.user_id ≠ newId) :
    (signup db newId pid meta = .error .invalidEnumCast ∧
      runSignup db newId pid meta = db) ∧
    (∀ meta2 : SignupMetadata, meta2.role = none →
      signup db newId pid meta2 = .ok
        { authUsers := db.authUsers ++ [newId]
          profiles := db.profiles ++ [provisionedProfile newId pid meta2 AppRole.tourist]
          sessions := db.sessions
          alerts := db.alerts }) := by
  have hany : db.profiles.any (fun p => p.user_id == newId) = false := by
    rw [List.any_eq_false]
    intro p hp
    simp only [beq_iff_eq]
    exact hfresh p hp
  constructor
  · have hmr : metaRole meta = .error .invalidEnumCast := by
      simp [metaRole, hbad, hcast]
    have h1 : signup db newId pid meta = .error .invalidEnumCast := by
      unfold signup handle_new_user
      rw [hmr]
    refine ⟨h1, ?_⟩
    unfold runSignup
    rw [h1]
    rfl
  · intro meta2 h2
    have hmr2 : metaRole meta2 = .ok AppRole.tourist := by
      unfold metaRole
      rw [h2]
    simp [signup, handle_new_user, hmr2, hany]

theorem invalidRoleAbortsSignupWitness :
    runSignup sampleDb 7 5
      { full_name := some "Eve", role := some "superuser", phone := none
        emergency_contact_name := none, emergency_contact_phone := none
        country := none } = sampleDb :=
  ((invalidRoleAbortsSignup sampleDb 7 5
      { full_name := some "Eve", role := some "superuser", phone := none
        emergency_contact_name := none, emergency_contact_phone := none
        country := none } "superuser" (by decide) (by decide) (by decide)).1).2

/-- Claim C4: a successful signup inserts exactly one profiles row,
with `role` the cast of the metadata role (defaulting to `tourist`),
`full_name` the metadata name (defaulting to the literal `User`), and
the four optional fields passed through as-is (null when absent). -/
theorem provisioningInsertsExactRow (db : DbState) (newId : UserId) (pid : Nat)
    (meta : SignupMetadata) (r : AppRole)
    (hrole : metaRole meta = .ok r)
    (hfresh : ∀ p ∈ db.profiles, p.user_id ≠ newId) :
    signup db newId pid meta = .ok
      { authUsers := db.authUsers ++ [newId]
        profiles := db.profiles ++ [provisionedProfile newId pid meta r]
        sessions := db.sessions
        alerts := db.alerts } ∧
    (runSignup db newId pid meta).profiles.filter (fun p => p.user_id == newId)
      = [provisionedProfile newId pid meta r] := by
  have hany : db.profiles.any (fun p => p.user_id == newId) = false := by
    rw [List.any_eq_false]
    intro p hp
    simp only [beq_iff_eq]
    exact hfresh p hp
  have h1 : signup db newId pid meta = .ok
      { authUsers := db.authUsers ++ [newId]
        profiles := db.profiles ++ [provisionedProfile newId pid meta r]
        sessions := db.sessions
        alerts := db.alerts } := by
    simp [signup, handle_new_user, hrole, hany]
  refine ⟨h1, ?_⟩
  unfold runSignup
  rw [h1]
  show (db.profiles ++ [provisionedProfile newId pid meta r]).filter
    (fun p => p.user_id == newId) = [provisionedProfile newId pid meta r]
  rw [List.filter_append]
  have hleft : db.profiles.filter (fun p => p.user_id == newId) = [] := by
    rw [List.filter_eq_nil_iff]
    intro p hp
    simp only [beq_iff_eq]
    exact hfresh p hp
  rw [hleft]
  simp [provisionedProfile]

theorem provisioningInsertsExactRowWitness :
    (runSignup sampleDb 7 5
        { full_name := none, role := some "police", phone := some "555"
          emergency_contact_name := none, emergency_contact_phone := none
          country := some "FR" }).profiles.filter (fun p => p.user_id == 7)
      = [provisionedProfile 7 5
          { full_name := none, role := some "police", phone := some "555"
            emergency_contact_name := none, emergency_contact_phone := none
            country := some "FR" } AppRole.police] :=
  (provisioningInsertsExactRow sampleDb 7 5
      { full_name := none, role := some "police", phone := some "555"
        emergency_contact_name := none, emergency_contact_phone := none
        country := some "FR" } AppRole.police rfl (by decide)).2

/-- Claim C7: in any state satisfying the one-profile-per-user
invariant, a client-side insert into `profiles` always errors (on the
policy for foreign rows, on the `user_id` uniqueness for own rows) and
rolls back, so identity rows only ever come from the provisioning
trigger; and a successful signup for a fresh auth user preserves the
invariant, the new user ending with exactly one profiles row. -/
theorem profileRowsOnlyFromTrigger (db : DbState) (hinv : profilesInvariant db) :
    (∀ uid row, insertProfileClient db uid row ≠ .ok db ∧
      applyOrRollback db (insertProfileClient db uid row) = db) ∧
    (∀ newId pid meta st, newId ∉ db.authUsers →
      signup db newId pid meta = .ok st → profilesInvariant st) := by
  obtain ⟨hone, hfk⟩ := hinv
  have herr : ∀ uid row, ∃ e, insertProfileClient db uid row = .error e := by
    intro uid row
    unfold insertProfileClient
    by_cases hchk : profilesInsertCheck uid row = true
    · by_cases hany : db.profiles.any (fun p => p.user_id == row.user_id) = true
      · refine ⟨.uniqueViolation, ?_⟩
        simp [hchk, hany]
      · by_cases hmem : row.user_id ∈ db.authUsers
        · exfalso
          have hlen := hone row.user_id hmem
          have hnil : db.profiles.filter (fun p => p.user_id == row.user_id) = [] := by
            rw [List.filter_eq_nil_iff]
            intro p hp
            exact (List.any_eq_false.mp (Bool.eq_false_iff.mpr hany) p hp)
          rw [hnil] at hlen
          simp at hlen
        · refine ⟨.fkViolation, ?_⟩
          have hcont : db.authUsers.contains row.user_id = false := by
            simp [hmem]
          simp [hchk, hany, hcont, hmem]
    · refine ⟨.rlsViolation, ?_⟩
      simp [hchk]
  constructor
  · intro uid row
    obtain ⟨e, he⟩ := herr uid row
    rw [he]
    exact ⟨by simp, rfl⟩
  · intro newId pid meta st hfresh hok
    unfold signup handle_new_user at hok
    cases hmr : metaRole meta with
    | error e =>
      rw [hmr] at hok
      cases hok
    | ok r =>
      rw [hmr] at hok
      have hany2 : db.profiles.any (fun p => p.user_id == newId) = false := by
        rw [List.any_eq_false]
        intro p hp
        simp only [beq_iff_eq]
        intro he
        exact hfresh (he ▸ hfk p hp)
      simp only [hany2, Bool.false_eq_true, if_false] at hok
      have hst : st =
          { authUsers := db.authUsers ++ [newId]
            profiles := db.profiles ++ [provisionedProfile newId pid meta r]
            sessions := db.sessions
            alerts := db.alerts } :=
        (Except.ok.inj hok).symm
      subst hst
      have hnewRow : (provisionedProfile newId pid meta r).user_id = newId := rfl
      constructor
      · intro u hu
        rw [List.filter_append]
        rcases List.mem_append.mp hu with hu1 | hu2
        · have hne : ((provisionedProfile newId pid meta r).user_id == u) = false := by
            rw [hnewRow, beq_eq_false_iff_ne]
            intro he
            exact hfresh (he ▸ hu1)
          rw [List.filter_cons, if_neg (by simp [hne])]
          simpa using hone u hu1
        · have hu2 : u = newId := List.mem_singleton.mp hu2
          subst hu2
          have hnil : db.profiles.filter (fun p => p.user_id == u) = [] := by
            rw [List.filter_eq_nil_iff]
            intro p hp
            simp only [beq_iff_eq]
            intro he
            exact hfresh (he ▸ hfk p hp)
          rw [hnil]
          simp [hnewRow]
      · intro p hp
        rcases List.mem_append.mp hp with hp1 | hp2
        · exact List.mem_append_left _ (hfk p hp1)
        · have hp2 : p = provisionedProfile newId pid meta r :=
            List.mem_singleton.mp hp2
          subst hp2
          rw [hnewRow]
          exact List.mem_append_right _ (List.mem_singleton.mpr rfl)

theorem profileRowsOnlyFromTriggerWitness :
    insertProfileClient sampleDb 2
        { touristProfile with id := 5 } ≠ .ok sampleDb ∧
    applyOrRollback sampleDb (insertProfileClient sampleDb 2
        { touristProfile with id := 5 }) = sampleDb :=
  (profileRowsOnlyFromTrigger sampleDb (by decide)).1 2 { touristProfile with id := 5 }

end SafeTourist
